import Mathlib

/-!
Verification of the Dual-AI Orchestrator engine core: a shallow embedding in Lean 4 of
the provider-abstraction layer (rate limiting, the two provider adapters), the agent
memory model, and the multi-agent collaboration coordinator, together with theorems
settling the specification claims. Network calls are modelled by pure oracle functions
passed in as parameters; the single observation instant replaces the wall clock.
-/

namespace DualAI

/-- Chat message role (the `system` / `user` / `assistant` role strings). -/
inductive Role : Type
| system
| user
| assistant
deriving DecidableEq, BEq

/-- A normalized chat message: a role together with its text content. -/
structure Message where
  role : Role
  content : String
deriving DecidableEq

/-- Token usage block returned by a provider, passed through unchanged. -/
structure Usage where
  promptTokens : Nat
  completionTokens : Nat
deriving DecidableEq

/-- Per-provider fixed-window rate limit state (`requests`, `resetTime`, `limit`). -/
structure RateLimitWindow where
  requests : Nat
  resetTime : Nat
  limit : Nat
deriving DecidableEq

/-- State of the dual API client: the two optional credentials and the two windows. -/
structure ClientState where
  openaiKey : Option String
  anthropicKey : Option String
  openaiWindow : RateLimitWindow
  anthropicWindow : RateLimitWindow
deriving DecidableEq

/-- The global metrics counters touched by the engine core. -/
structure Metrics where
  openaiRequests : Nat
  anthropicRequests : Nat
  errors : Nat
deriving DecidableEq

/-- Caller-supplied per-call options (`temperature`, `maxTokens`). -/
structure Options where
  temperature : Option Rat := none
  maxTokens : Option Nat := none
deriving DecidableEq

/-- Request body sent to the OpenAI-shaped endpoint. -/
structure OpenAIBody where
  model : String
  messages : List Message
  temperature : Rat
  maxTokens : Nat
deriving DecidableEq

/-- Request body sent to the Anthropic-shaped endpoint: system messages are hoisted
into the single top-level `system` string, the rest stay in `messages`. -/
structure AnthropicBody where
  model : String
  maxTokens : Nat
  temperature : Rat
  system : String
  messages : List Message
deriving DecidableEq

/-- A transport-level response: HTTP success flag, status data and the parsed body. -/
structure HttpResp (α : Type) where
  ok : Bool
  status : Nat
  statusText : String
  json : α
deriving DecidableEq

/-- The normalized (OpenAI-shaped) reply both adapters produce: each element of
`choices` stands for that choice's `message` field. -/
structure APIResponse where
  choices : List Message
  usage : Usage
deriving DecidableEq

/-- Parsed body of an Anthropic reply: the list of content block texts and usage. -/
structure AnthropicResult where
  content : List String
  usage : Usage
deriving DecidableEq

/-- Lazily reset the window if the observation instant passed its reset time, then
report whether a request is admitted; the caller performs the increment. -/
def checkRateLimit (w : RateLimitWindow) (now : Nat) : Bool × RateLimitWindow :=
  let w' := if now > w.resetTime then { w with requests := 0, resetTime := now + 60000 } else w
  (decide (w'.requests < w'.limit), w')

/-- The composite admission test actually performed at each call site: the lazy-reset
check followed by the increment that the caller executes only when admitted. -/
def checkAndReserve (w : RateLimitWindow) (now : Nat) : Bool × RateLimitWindow :=
  let cw := checkRateLimit w now
  if cw.1 then (true, { cw.2 with requests := cw.2.requests + 1 }) else (false, cw.2)

/-- RateLimiter contract written directly from the specification text, kept separate
so the code-derived `checkAndReserve` can be compared against it. -/
def specCheckAndReserve (w : RateLimitWindow) (now : Nat) : Bool × RateLimitWindow :=
  let w' := if now > w.resetTime then { w with requests := 0, resetTime := now + 60000 } else w
  if w'.requests < w'.limit then (true, { w' with requests := w'.requests + 1 }) else (false, w')

/-- OpenAI request body: messages pass through as-is, defaults 0.7 / 2000. -/
def openaiBody (messages : List Message) (model : String) (options : Options) : OpenAIBody :=
  { model := model
    messages := messages
    temperature := options.temperature.getD ((7 : Rat) / 10)
    maxTokens := options.maxTokens.getD 2000 }

/-- Anthropic request body: system-role messages extracted and joined with newlines
into the `system` field, remaining messages kept in their original relative order. -/
def anthropicBody (messages : List Message) (model : String) (options : Options) : AnthropicBody :=
  { model := model
    maxTokens := options.maxTokens.getD 2000
    temperature := options.temperature.getD ((7 : Rat) / 10)
    system := String.intercalate ("\n") ((messages.filter (fun m => m.role == Role.system)).map (fun m => m.content))
    messages := messages.filter (fun m => m.role != Role.system) }

/-- The OpenAI adapter: credential gate, rate-limit gate, counter increments, then the
transport call (the oracle `fO`); a non-success response becomes a provider error. -/
def callOpenAI (cs : ClientState) (ms : Metrics) (now : Nat)
    (fO : OpenAIBody → HttpResp APIResponse)
    (messages : List Message) (model : String) (options : Options) :
    Except String APIResponse × ClientState × Metrics :=
  match cs.openaiKey with
  | none => (Except.error ("OpenAI API key not configured"), cs, ms)
  | some _ =>
    let cw := checkRateLimit cs.openaiWindow now
    if cw.1 then
      let cs' := { cs with openaiWindow := { cw.2 with requests := cw.2.requests + 1 } }
      let ms' := { ms with openaiRequests := ms.openaiRequests + 1 }
      let resp := fO (openaiBody messages model options)
      if resp.ok then (Except.ok resp.json, cs', ms')
      else (Except.error (("OpenAI API error: ") ++ toString resp.status ++ (" ") ++ resp.statusText), cs', ms')
    else (Except.error ("OpenAI rate limit exceeded"), { cs with openaiWindow := cw.2 }, ms)

/-- The Anthropic adapter: same gates and counters, system-message hoisting on the way
out, and reply normalization (wrapping the first content block) on the way back. -/
def callAnthropic (cs : ClientState) (ms : Metrics) (now : Nat)
    (fA : AnthropicBody → HttpResp AnthropicResult)
    (messages : List Message) (model : String) (options : Options) :
    Except String APIResponse × ClientState × Metrics :=
  match cs.anthropicKey with
  | none => (Except.error ("Anthropic API key not configured"), cs, ms)
  | some _ =>
    let cw := checkRateLimit cs.anthropicWindow now
    if cw.1 then
      let cs' := { cs with anthropicWindow := { cw.2 with requests := cw.2.requests + 1 } }
      let ms' := { ms with anthropicRequests := ms.anthropicRequests + 1 }
      let resp := fA (anthropicBody messages model options)
      if resp.ok then
        match resp.json.content.head? with
        | some text =>
          (Except.ok { choices := [{ role := Role.assistant, content := text }], usage := resp.json.usage }, cs', ms')
        | none =>
          (Except.error ("Cannot read properties of undefined (reading \x27text\x27)"), cs', ms')
      else (Except.error (("Anthropic API error: ") ++ toString resp.status ++ (" ") ++ resp.statusText), cs', ms')
    else (Except.error ("Anthropic rate limit exceeded"), { cs with anthropicWindow := cw.2 }, ms)

/-- The gateway: dispatch on the provider string; any error increments the global
error counter and is re-thrown unchanged. -/
def callAPI (cs : ClientState) (ms : Metrics) (now : Nat)
    (fO : OpenAIBody → HttpResp APIResponse) (fA : AnthropicBody → HttpResp AnthropicResult)
    (provider : String) (messages : List Message) (model : String) (options : Options) :
    Except String APIResponse × ClientState × Metrics :=
  let rcm :=
    if provider == ("openai") then callOpenAI cs ms now fO messages model options
    else if provider == ("anthropic") then callAnthropic cs ms now fA messages model options
    else (Except.error (("Unsupported provider: ") ++ provider), cs, ms)
  match rcm.1 with
  | Except.error e => (Except.error e, rcm.2.1, { rcm.2.2 with errors := rcm.2.2.errors + 1 })
  | Except.ok v => (Except.ok v, rcm.2.1, rcm.2.2)

/-- An agent: identity, role label, provider/model choice, instructions, and the
bounded ordered memory buffer. -/
structure Agent where
  id : String
  name : String
  role : String
  provider : String
  model : String
  instructions : String
  memory : List Message
  created : Nat
deriving DecidableEq

/-- Agent creation request: every field optional, defaults applied on creation. -/
structure AgentConfig where
  name : Option String := none
  role : Option String := none
  provider : Option String := none
  model : Option String := none
  instructions : Option String := none
deriving DecidableEq

/-- The agent summary returned by a successful execution. -/
structure AgentSummary where
  id : String
  name : String
  role : String
  provider : String
deriving DecidableEq

/-- Result of a successful single-agent execution. -/
structure ExecResult where
  agent : AgentSummary
  response : String
  usage : Usage
deriving DecidableEq

/-- Whole-orchestrator state: client state, metrics, and the agent registry. -/
structure OrchState where
  client : ClientState
  metrics : Metrics
  agents : List (String × Agent)
deriving DecidableEq

/-- One turn of a collaboration run: a success record carries the agent summary,
response and usage; an error record carries only the agent id and the message. -/
structure TurnRecord where
  iteration : Nat
  timestamp : Nat
  agentId : String
  agentName : Option String
  agentRole : Option String
  agentProvider : Option String
  response : Option String
  usage : Option Usage
  error : Option String
deriving DecidableEq

/-- A completed collaboration run. -/
structure Collaboration where
  id : String
  goal : String
  agents : List String
  conversation : List TurnRecord
  started : Nat
  completed : Option Nat
deriving DecidableEq

/-- Look up an agent by id in the registry. -/
def lookupAgent : List (String × Agent) → String → Option Agent
  | [], _ => none
  | p :: t, id => if p.1 == id then some p.2 else lookupAgent t id

/-- Replace the entry for `id` in the registry (the in-place mutation of the stored
agent object, expressed functionally). -/
def setAgent : List (String × Agent) → String → Agent → List (String × Agent)
  | [], _, _ => []
  | p :: t, id, a => (if p.1 == id then (p.1, a) else p) :: setAgent t id a

/-- The defaulting operator used for config fields: the empty string counts as
absent, exactly like a falsy value. -/
def jsOr (v : Option String) (d : String) : String :=
  match v with
  | none => d
  | some s => if s == ("") then d else s

/-- Create an agent with structural defaults; no validation of the provider beyond
defaulting falsy values. -/
def createAgent (os : OrchState) (freshId : String) (now : Nat) (config : AgentConfig) :
    Agent × OrchState :=
  let agent : Agent :=
    { id := freshId
      name := jsOr config.name ("Agent")
      role := jsOr config.role ("Assistant")
      provider := jsOr config.provider ("openai")
      model := jsOr config.model (if config.provider == some ("anthropic") then ("claude-3-5-sonnet-20241022") else ("gpt-4"))
      instructions := jsOr config.instructions ("You are a helpful AI assistant.")
      memory := []
      created := now }
  (agent, { os with agents := os.agents ++ [(freshId, agent)] })

/-- Trim an agent memory to the 20 most recent entries (front eviction). -/
def trimMemory (l : List Message) : List Message :=
  if l.length > 20 then l.drop (l.length - 20) else l

/-- Apply the gateway result to the orchestrator state: thread the client and metrics
state through, and on success perform the atomic append-then-trim memory update and
build the execution result. -/
def applyReply (os : OrchState) (agentId : String) (message : String) (agent : Agent)
    (rcm : Except String APIResponse × ClientState × Metrics) :
    Except String ExecResult × OrchState :=
  let os' : OrchState := { os with client := rcm.2.1, metrics := rcm.2.2 }
  match rcm.1 with
  | Except.error e => (Except.error e, os')
  | Except.ok resp =>
    match resp.choices.head? with
    | none => (Except.error ("Cannot read properties of undefined (reading \x27message\x27)"), os')
    | some assistantMessage =>
      let agent' : Agent :=
        { agent with memory := trimMemory (agent.memory ++ [{ role := Role.user, content := message }, assistantMessage]) }
      (Except.ok
        { agent := { id := agent.id, name := agent.name, role := agent.role, provider := agent.provider }
          response := assistantMessage.content
          usage := resp.usage },
       { os' with agents := setAgent os'.agents agentId agent' })

/-- Execute one agent: look it up, build the message list
`system instructions :: memory ++ [user message]`, call the gateway, and on success
append the user message and the assistant reply together, then trim. Any error leaves
the registry (and hence every agent memory) untouched. -/
def executeAgent (os : OrchState) (now : Nat)
    (fO : OpenAIBody → HttpResp APIResponse) (fA : AnthropicBody → HttpResp AnthropicResult)
    (agentId : String) (message : String) (options : Options) :
    Except String ExecResult × OrchState :=
  match lookupAgent os.agents agentId with
  | none => (Except.error ("Agent not found"), os)
  | some agent =>
    applyReply os agentId message agent
      (callAPI os.client os.metrics now fO fA agent.provider
        ({ role := Role.system, content := agent.instructions } ::
          (agent.memory ++ [{ role := Role.user, content := message }]))
        agent.model options)

/-- The fixed initial collaboration prompt embedding the goal. -/
def initialMessage (goal : String) : String :=
  ("Goal: ") ++ goal ++ ("\n\nLet\x27s work together to achieve this goal. Please provide your initial thoughts and approach.")

/-- A success turn record, spreading the execution result fields. -/
def successRecord (i now : Nat) (r : ExecResult) : TurnRecord :=
  { iteration := i, timestamp := now, agentId := r.agent.id, agentName := some r.agent.name
    agentRole := some r.agent.role, agentProvider := some r.agent.provider
    response := some r.response, usage := some r.usage, error := none }

/-- An error turn record: only the agent id and the error message are recorded. -/
def errorRecord (i now : Nat) (agentId e : String) : TurnRecord :=
  { iteration := i, timestamp := now, agentId := agentId, agentName := none
    agentRole := none, agentProvider := none, response := none, usage := none
    error := some e }

/-- Render a turn record line of the digest; fields absent on an error record render
as the text a template string gives an undefined value. -/
def digestLine (r : TurnRecord) : String :=
  (r.agentName.getD ("undefined")) ++ (": ") ++ (r.response.getD ("undefined"))

/-- The digest prompt assembled from the most recent `n` turn records.
A slice with a zero negative offset takes the whole array, hence the `n = 0` case. -/
def previousResponsesDigest (n : Nat) (conv : List TurnRecord) : String :=
  let recent := if n == 0 then conv else conv.drop (conv.length - n)
  ("Previous responses:\n") ++ String.intercalate ("\n\n") (recent.map digestLine)
    ++ ("\n\nPlease build upon these ideas and continue working toward our goal.")

/-- One agent turn of a collaboration: on success, append a success record and
re-derive the next prompt from the digest; on any error, append an error record and
keep the current prompt unchanged. -/
def collabTurn (fO : OpenAIBody → HttpResp APIResponse) (fA : AnthropicBody → HttpResp AnthropicResult)
    (now n i : Nat) (acc : OrchState × List TurnRecord × String) (agentId : String) :
    OrchState × List TurnRecord × String :=
  match executeAgent acc.1 now fO fA agentId acc.2.2 {} with
  | (Except.ok r, os') =>
    let conv' := acc.2.1 ++ [successRecord (i + 1) now r]
    (os', conv', previousResponsesDigest n conv')
  | (Except.error e, os') =>
    (os', acc.2.1 ++ [errorRecord (i + 1) now agentId e], acc.2.2)

/-- Drive the participants through `iterations` rounds toward the goal, isolating
per-turn failures, and return the completed run. -/
def collaborateAgents (os : OrchState) (runId : String) (agentIds : List String)
    (goal : String) (iterations : Nat) (now : Nat)
    (fO : OpenAIBody → HttpResp APIResponse) (fA : AnthropicBody → HttpResp AnthropicResult) :
    Collaboration × OrchState :=
  let n := agentIds.length
  let acc := (List.range iterations).foldl
    (fun a i => agentIds.foldl (collabTurn fO fA now n i) a)
    (os, ([] : List TurnRecord), initialMessage goal)
  ({ id := runId, goal := goal, agents := agentIds, conversation := acc.2.1
     started := now, completed := some now }, acc.1)

/-- Zero usage block for canned replies. -/
def usage0 : Usage := { promptTokens := 0, completionTokens := 0 }

/-- A fresh one-minute window with the default limit. -/
def window60 : RateLimitWindow := { requests := 0, resetTime := 60000, limit := 60 }

/-- Zeroed metrics. -/
def metrics0 : Metrics := { openaiRequests := 0, anthropicRequests := 0, errors := 0 }

/-- Baseline state: OpenAI configured, Anthropic credential missing, no agents. -/
def os0 : OrchState :=
  { client :=
      { openaiKey := some ("k1"), anthropicKey := none
        openaiWindow := window60, anthropicWindow := window60 }
    metrics := metrics0
    agents := [] }

/-- OpenAI oracle returning a constant successful reply. -/
def okFO : OpenAIBody → HttpResp APIResponse :=
  fun _ =>
    { ok := true, status := 200, statusText := ("OK")
      json := { choices := [{ role := Role.assistant, content := ("r") }], usage := usage0 } }

/-- Anthropic oracle returning a transport failure. -/
def noFA : AnthropicBody → HttpResp AnthropicResult :=
  fun _ =>
    { ok := false, status := 500, statusText := ("ERR")
      json := { content := [], usage := usage0 } }

/-- OpenAI oracle returning a 500 transport failure. -/
def failFO : OpenAIBody → HttpResp APIResponse :=
  fun _ =>
    { ok := false, status := 500, statusText := ("Internal Server Error")
      json := { choices := [], usage := usage0 } }

/-- OpenAI oracle echoing the first request message content and the request length,
so each canned reply identifies the turn that produced it. -/
def echoFO : OpenAIBody → HttpResp APIResponse :=
  fun b =>
    { ok := true, status := 200, statusText := ("OK")
      json :=
        { choices :=
            [{ role := Role.assistant
               content := (match b.messages.head? with | some m => m.content | none => ("")) ++ ("|") ++ toString b.messages.length }]
          usage := usage0 } }

/-- A minimal OpenAI-backed agent used by the concrete scenarios. -/
def mAgent : Agent :=
  { id := ("a"), name := ("A"), role := ("Assistant"), provider := ("openai")
    model := ("gpt-4"), instructions := ("I"), memory := [], created := 0 }

/-- State holding the single agent `a` with a roomy rate limit. -/
def memOS : OrchState :=
  { client :=
      { openaiKey := some ("k1"), anthropicKey := none
        openaiWindow := { requests := 0, resetTime := 60000, limit := 100 }
        anthropicWindow := window60 }
    metrics := metrics0
    agents := [(("a"), mAgent)] }

/-- Run `k` successful exchanges against agent `a` with user messages m1, m2, ... -/
def runExchanges (k : Nat) (os : OrchState) : OrchState :=
  (List.range k).foldl
    (fun s j => (executeAgent s 0 okFO noFA ("a") (("m") ++ toString (j + 1)) {}).2) os

/-- The 20 most recent messages appended over 15 exchanges: the pairs for m6..m15. -/
def expected20 : List Message :=
  [ { role := Role.user, content := ("m6") }, { role := Role.assistant, content := ("r") }
  , { role := Role.user, content := ("m7") }, { role := Role.assistant, content := ("r") }
  , { role := Role.user, content := ("m8") }, { role := Role.assistant, content := ("r") }
  , { role := Role.user, content := ("m9") }, { role := Role.assistant, content := ("r") }
  , { role := Role.user, content := ("m10") }, { role := Role.assistant, content := ("r") }
  , { role := Role.user, content := ("m11") }, { role := Role.assistant, content := ("r") }
  , { role := Role.user, content := ("m12") }, { role := Role.assistant, content := ("r") }
  , { role := Role.user, content := ("m13") }, { role := Role.assistant, content := ("r") }
  , { role := Role.user, content := ("m14") }, { role := Role.assistant, content := ("r") }
  , { role := Role.user, content := ("m15") }, { role := Role.assistant, content := ("r") } ]

/-- Collaboration scenario agent Alice (OpenAI-backed). -/
def aliceAgent : Agent :=
  { id := ("alice"), name := ("Alice"), role := ("Assistant"), provider := ("openai")
    model := ("gpt-4"), instructions := ("IA"), memory := [], created := 0 }

/-- Collaboration scenario agent Bob (OpenAI-backed). -/
def bobAgent : Agent :=
  { aliceAgent with id := ("bob"), name := ("Bob"), instructions := ("IB") }

/-- Bob rebound to the unconfigured Anthropic provider, so his turns always fail. -/
def bobAnthropic : Agent := { bobAgent with provider := ("anthropic") }

/-- Two healthy agents for the all-success round-robin scenario. -/
def collabOSOk : OrchState :=
  { client :=
      { openaiKey := some ("k1"), anthropicKey := none
        openaiWindow := { requests := 0, resetTime := 60000, limit := 100 }
        anthropicWindow := window60 }
    metrics := metrics0
    agents := [(("alice"), aliceAgent), (("bob"), bobAgent)] }

/-- Two agents, two iterations, every turn successful. -/
def runOk2 : Collaboration × OrchState :=
  collaborateAgents collabOSOk ("run1") [("alice"), ("bob")] ("G") 2 0 echoFO noFA

/-- Same scenario but Bob always fails (missing Anthropic credential). -/
def collabOSErr : OrchState :=
  { collabOSOk with agents := [(("alice"), aliceAgent), (("bob"), bobAnthropic)] }

/-- Two agents, two iterations, Bob failing every turn. -/
def runErr2 : Collaboration × OrchState :=
  collaborateAgents collabOSErr ("run2") [("alice"), ("bob")] ("G") 2 0 echoFO noFA

/-- Three agents with the middle one bound to the unconfigured provider. -/
def iso3OS : OrchState :=
  { client :=
      { openaiKey := some ("k1"), anthropicKey := none
        openaiWindow := { requests := 0, resetTime := 60000, limit := 100 }
        anthropicWindow := window60 }
    metrics := metrics0
    agents :=
      [ (("a1"), { mAgent with id := ("a1"), name := ("A1") })
      , (("a2"), { mAgent with id := ("a2"), name := ("A2"), provider := ("anthropic") })
      , (("a3"), { mAgent with id := ("a3"), name := ("A3") }) ] }

/-- Three agents over two iterations with agent 2 failing every turn. -/
def iso3Run : Collaboration × OrchState :=
  collaborateAgents iso3OS ("run3") [("a1"), ("a2"), ("a3")] ("G") 2 0 okFO noFA

/-- Client with both providers configured. -/
def bothClient : ClientState :=
  { openaiKey := some ("k1"), anthropicKey := some ("k2")
    openaiWindow := window60, anthropicWindow := window60 }

/-- The specification's example list: one system message, then user and assistant. -/
def exMsgs : List Message :=
  [ { role := Role.system, content := ("s1") }
  , { role := Role.user, content := ("u1") }
  , { role := Role.assistant, content := ("a1") } ]

/-- A turn record is either a success record (response and usage present, no error)
or an error record (no response or usage, an error message present). -/
def recordShape (r : TurnRecord) : Prop :=
  (r.error = none ∧ r.response.isSome = true ∧ r.usage.isSome = true)
  ∨ (r.response = none ∧ r.usage = none ∧ ∃ e, r.error = some e)

/-- Trimming never leaves more than the cap. -/
theorem trimMemory_length_le (l : List Message) : (trimMemory l).length ≤ 20 := by
  unfold trimMemory
  split
  · rw [List.length_drop]
    omega
  · omega

/-- Trimming keeps a suffix of the buffer: eviction is from the front only. -/
theorem trimMemory_suffix (l : List Message) : trimMemory l <:+ l := by
  unfold trimMemory
  split
  · exact List.drop_suffix _ _
  · exact List.suffix_refl l

/-- Setting an agent rewrites exactly the bound entry in the registry. -/
theorem lookupAgent_set (l : List (String × Agent)) (id : String) (a' : Agent) :
    lookupAgent (setAgent l id a') id = (lookupAgent l id).map (fun _ => a') := by
  induction l with
  | nil => rfl
  | cons p t ih =>
    by_cases h : p.1 == id
    · simp [lookupAgent, setAgent, h]
    · simp [lookupAgent, setAgent, h, ih]

/-- Any failing gateway outcome leaves the registry untouched. -/
theorem applyReply_err_agents (os : OrchState) (aid msg : String) (agent : Agent)
    (rcm : Except String APIResponse × ClientState × Metrics) (e : String)
    (h : (applyReply os aid msg agent rcm).1 = Except.error e) :
    ((applyReply os aid msg agent rcm).2).agents = os.agents := by
  unfold applyReply at *
  rcases rcm with ⟨r, cs2, ms2⟩
  cases r with
  | error e' => rfl
  | ok resp =>
    cases hh : resp.choices.head? with
    | none => simp only [hh]
    | some am => simp [hh] at h

/-- A successful gateway outcome stores exactly the trimmed
`memory ++ [user, assistant]` buffer for the executed agent. -/
theorem applyReply_ok_mem (os : OrchState) (aid msg : String) (agent : Agent)
    (rcm : Except String APIResponse × ClientState × Metrics) (res : ExecResult)
    (h : (applyReply os aid msg agent rcm).1 = Except.ok res)
    (ha : lookupAgent os.agents aid = some agent) :
    ∃ am : Message, am.content = res.response ∧
      lookupAgent ((applyReply os aid msg agent rcm).2).agents aid
        = some { agent with memory := trimMemory (agent.memory ++ [{ role := Role.user, content := msg }, am]) } := by
  unfold applyReply at *
  rcases rcm with ⟨r, cs2, ms2⟩
  cases r with
  | error e' => simp at h
  | ok resp =>
    cases hh : resp.choices.head? with
    | none => simp [hh] at h
    | some am =>
      refine ⟨am, ?_, ?_⟩
      · simp only [hh] at h
        cases h
        rfl
      · simp only [hh]
        rw [lookupAgent_set]
        simp [ha]

/-- Any error from a single-agent execution leaves the registry untouched. -/
theorem executeAgent_err_agents (os : OrchState) (now : Nat)
    (fO : OpenAIBody → HttpResp APIResponse) (fA : AnthropicBody → HttpResp AnthropicResult)
    (aid msg : String) (opts : Options) (e : String)
    (h : (executeAgent os now fO fA aid msg opts).1 = Except.error e) :
    ((executeAgent os now fO fA aid msg opts).2).agents = os.agents := by
  unfold executeAgent at *
  cases hl : lookupAgent os.agents aid with
  | none => simp only [hl]
  | some agent =>
    simp only [hl] at h ⊢
    exact applyReply_err_agents os aid msg agent _ e h

/-- A successful single-agent execution appends the user message and an assistant
reply whose content is the returned response, then trims. -/
theorem executeAgent_ok_mem (os : OrchState) (now : Nat)
    (fO : OpenAIBody → HttpResp APIResponse) (fA : AnthropicBody → HttpResp AnthropicResult)
    (aid msg : String) (opts : Options) (res : ExecResult) (a : Agent)
    (h : (executeAgent os now fO fA aid msg opts).1 = Except.ok res)
    (ha : lookupAgent os.agents aid = some a) :
    ∃ am : Message, am.content = res.response ∧
      lookupAgent ((executeAgent os now fO fA aid msg opts).2).agents aid
        = some { a with memory := trimMemory (a.memory ++ [{ role := Role.user, content := msg }, am]) } := by
  unfold executeAgent at *
  simp only [ha] at h ⊢
  exact applyReply_ok_mem os aid msg a _ res h ha

/-- Turn equation on success: append the success record and re-derive the prompt. -/
theorem collabTurn_ok (fO : OpenAIBody → HttpResp APIResponse)
    (fA : AnthropicBody → HttpResp AnthropicResult) (now n i : Nat) (os : OrchState)
    (conv : List TurnRecord) (msg aid : String) (r : ExecResult) (os₁ : OrchState)
    (h : executeAgent os now fO fA aid msg {} = (Except.ok r, os₁)) :
    collabTurn fO fA now n i (os, conv, msg) aid
      = (os₁, conv ++ [successRecord (i + 1) now r],
         previousResponsesDigest n (conv ++ [successRecord (i + 1) now r])) := by
  unfold collabTurn
  rw [h]

/-- Turn equation on failure: append the error record carrying the error message and
keep the current prompt unchanged. -/
theorem collabTurn_err (fO : OpenAIBody → HttpResp APIResponse)
    (fA : AnthropicBody → HttpResp AnthropicResult) (now n i : Nat) (os : OrchState)
    (conv : List TurnRecord) (msg aid : String) (e : String) (os₁ : OrchState)
    (h : executeAgent os now fO fA aid msg {} = (Except.error e, os₁)) :
    collabTurn fO fA now n i (os, conv, msg) aid
      = (os₁, conv ++ [errorRecord (i + 1) now aid e], msg) := by
  unfold collabTurn
  rw [h]

/-- Every turn, successful or not, appends exactly one record. -/
theorem collabTurn_len (fO : OpenAIBody → HttpResp APIResponse)
    (fA : AnthropicBody → HttpResp AnthropicResult) (now n i : Nat)
    (acc : OrchState × List TurnRecord × String) (aid : String) :
    ((collabTurn fO fA now n i acc aid).2.1).length = acc.2.1.length + 1 := by
  unfold collabTurn
  split <;> simp

/-- A round appends one record per participant. -/
theorem collabRound_len (fO : OpenAIBody → HttpResp APIResponse)
    (fA : AnthropicBody → HttpResp AnthropicResult) (now n i : Nat) :
    ∀ (ids : List String) (acc : OrchState × List TurnRecord × String),
      ((ids.foldl (collabTurn fO fA now n i) acc).2.1).length = acc.2.1.length + ids.length := by
  intro ids
  induction ids with
  | nil => intro acc; simp
  | cons a t ih =>
    intro acc
    simp only [List.foldl_cons, List.length_cons]
    rw [ih (collabTurn fO fA now n i acc a), collabTurn_len]
    ring

/-- The nested loop appends participants × iterations records in total. -/
theorem collabFold_len (fO : OpenAIBody → HttpResp APIResponse)
    (fA : AnthropicBody → HttpResp AnthropicResult) (now n : Nat) (ids : List String) :
    ∀ (K : Nat) (acc : OrchState × List TurnRecord × String),
      (((List.range K).foldl (fun a i => ids.foldl (collabTurn fO fA now n i) a) acc).2.1).length
        = acc.2.1.length + ids.length * K := by
  intro K
  induction K with
  | zero => intro acc; simp
  | succ k ih =>
    intro acc
    rw [List.range_succ, List.foldl_append]
    simp only [List.foldl_cons, List.foldl_nil]
    rw [collabRound_len, ih acc]
    ring

/-- A turn preserves well-shapedness of the whole conversation. -/
theorem collabTurn_shape (fO : OpenAIBody → HttpResp APIResponse)
    (fA : AnthropicBody → HttpResp AnthropicResult) (now n i : Nat)
    (acc : OrchState × List TurnRecord × String) (aid : String)
    (hacc : ∀ r ∈ acc.2.1, recordShape r) :
    ∀ r ∈ (collabTurn fO fA now n i acc aid).2.1, recordShape r := by
  unfold collabTurn
  split
  · intro r hr
    simp only at hr
    rcases List.mem_append.mp hr with h | h
    · exact hacc r h
    · rw [List.mem_singleton] at h
      subst h
      exact Or.inl ⟨rfl, rfl, rfl⟩
  · intro r hr
    simp only at hr
    rcases List.mem_append.mp hr with h | h
    · exact hacc r h
    · rw [List.mem_singleton] at h
      subst h
      exact Or.inr ⟨rfl, rfl, _, rfl⟩

/-- A round preserves well-shapedness. -/
theorem collabRound_shape (fO : OpenAIBody → HttpResp APIResponse)
    (fA : AnthropicBody → HttpResp AnthropicResult) (now n i : Nat) :
    ∀ (ids : List String) (acc : OrchState × List TurnRecord × String),
      (∀ r ∈ acc.2.1, recordShape r) →
      ∀ r ∈ (ids.foldl (collabTurn fO fA now n i) acc).2.1, recordShape r := by
  intro ids
  induction ids with
  | nil => intro acc hacc; simpa using hacc
  | cons a t ih =>
    intro acc hacc
    simp only [List.foldl_cons]
    exact ih _ (collabTurn_shape fO fA now n i acc a hacc)

/-- The nested loop preserves well-shapedness. -/
theorem collabFold_shape (fO : OpenAIBody → HttpResp APIResponse)
    (fA : AnthropicBody → HttpResp AnthropicResult) (now n : Nat) (ids : List String) :
    ∀ (K : Nat) (acc : OrchState × List TurnRecord × String),
      (∀ r ∈ acc.2.1, recordShape r) →
      ∀ r ∈ ((List.range K).foldl (fun a i => ids.foldl (collabTurn fO fA now n i) a) acc).2.1,
        recordShape r := by
  intro K
  induction K with
  | zero => intro acc hacc; simpa using hacc
  | succ k ih =>
    intro acc hacc
    rw [List.range_succ, List.foldl_append]
    simp only [List.foldl_cons, List.foldl_nil]
    exact collabRound_shape fO fA now n k ids _ (ih acc hacc)

/-- Folding a function that ignores the elements returns the accumulator. -/
theorem foldl_skip {α β : Type} (l : List β) (a : α) : l.foldl (fun x _ => x) a = a := by
  induction l generalizing a with
  | nil => rfl
  | cons b t ih => exact ih a

/-- The OpenAI adapter's window evolution is the composite check-and-reserve. -/
theorem callOpenAI_window (cs : ClientState) (ms : Metrics) (now : Nat)
    (fO : OpenAIBody → HttpResp APIResponse) (msgs : List Message) (model : String)
    (opts : Options) (key : String) (hk : cs.openaiKey = some key) :
    ((callOpenAI cs ms now fO msgs model opts).2.1).openaiWindow
      = (checkAndReserve cs.openaiWindow now).2 := by
  unfold callOpenAI checkAndReserve
  rw [hk]
  by_cases h : (checkRateLimit cs.openaiWindow now).1 <;> simp only [h, if_true, if_false]
  · split <;> rfl
  · rfl

/-- The Anthropic adapter's window evolution is the composite check-and-reserve. -/
theorem callAnthropic_window (cs : ClientState) (ms : Metrics) (now : Nat)
    (fA : AnthropicBody → HttpResp AnthropicResult) (msgs : List Message) (model : String)
    (opts : Options) (key : String) (hk : cs.anthropicKey = some key) :
    ((callAnthropic cs ms now fA msgs model opts).2.1).anthropicWindow
      = (checkAndReserve cs.anthropicWindow now).2 := by
  unfold callAnthropic checkAndReserve
  rw [hk]
  by_cases h : (checkRateLimit cs.anthropicWindow now).1 <;> simp only [h, if_true, if_false]
  · split
    · split <;> rfl
    · rfl
  · rfl

/-- Once both gates pass, the OpenAI request counter is incremented — whatever the
transport outcome. -/
theorem callOpenAI_counter_admitted (cs : ClientState) (ms : Metrics) (now : Nat)
    (fO : OpenAIBody → HttpResp APIResponse) (msgs : List Message) (model : String)
    (opts : Options) (key : String) (hk : cs.openaiKey = some key)
    (hr : (checkRateLimit cs.openaiWindow now).1 = true) :
    ((callOpenAI cs ms now fO msgs model opts).2.2).openaiRequests = ms.openaiRequests + 1 := by
  unfold callOpenAI
  rw [hk]
  simp only [hr, if_true]
  split <;> rfl

/-- A denied OpenAI admission leaves the metrics untouched. -/
theorem callOpenAI_counter_denied (cs : ClientState) (ms : Metrics) (now : Nat)
    (fO : OpenAIBody → HttpResp APIResponse) (msgs : List Message) (model : String)
    (opts : Options) (key : String) (hk : cs.openaiKey = some key)
    (hr : (checkRateLimit cs.openaiWindow now).1 = false) :
    (callOpenAI cs ms now fO msgs model opts).2.2 = ms := by
  unfold callOpenAI
  rw [hk]
  simp [hr]

/-- Once both gates pass, the Anthropic request counter is incremented — whatever the
transport outcome. -/
theorem callAnthropic_counter_admitted (cs : ClientState) (ms : Metrics) (now : Nat)
    (fA : AnthropicBody → HttpResp AnthropicResult) (msgs : List Message) (model : String)
    (opts : Options) (key : String) (hk : cs.anthropicKey = some key)
    (hr : (checkRateLimit cs.anthropicWindow now).1 = true) :
    ((callAnthropic cs ms now fA msgs model opts).2.2).anthropicRequests
      = ms.anthropicRequests + 1 := by
  unfold callAnthropic
  rw [hk]
  simp only [hr, if_true]
  split
  · split <;> rfl
  · rfl

/-- A denied Anthropic admission leaves the metrics untouched. -/
theorem callAnthropic_counter_denied (cs : ClientState) (ms : Metrics) (now : Nat)
    (fA : AnthropicBody → HttpResp AnthropicResult) (msgs : List Message) (model : String)
    (opts : Options) (key : String) (hk : cs.anthropicKey = some key)
    (hr : (checkRateLimit cs.anthropicWindow now).1 = false) :
    (callAnthropic cs ms now fA msgs model opts).2.2 = ms := by
  unfold callAnthropic
  rw [hk]
  simp [hr]

/-- The Anthropic adapter normalizes a canned single-block reply into the common
OpenAI-shaped value. -/
theorem callAnthropic_canned (cs : ClientState) (ms : Metrics) (now : Nat)
    (msgs : List Message) (model : String) (opts : Options) (c : String) (u : Usage)
    (key : String) (hk : cs.anthropicKey = some key)
    (hr : (checkRateLimit cs.anthropicWindow now).1 = true) :
    (callAnthropic cs ms now
        (fun _ => { ok := true, status := 200, statusText := ("OK"), json := { content := [c], usage := u } })
        msgs model opts).1
      = Except.ok { choices := [{ role := Role.assistant, content := c }], usage := u } := by
  unfold callAnthropic
  rw [hk]
  simp [hr]

/-- The OpenAI adapter passes a canned normalized reply through unchanged. -/
theorem callOpenAI_canned (cs : ClientState) (ms : Metrics) (now : Nat)
    (msgs : List Message) (model : String) (opts : Options) (c : String) (u : Usage)
    (key : String) (hk : cs.openaiKey = some key)
    (hr : (checkRateLimit cs.openaiWindow now).1 = true) :
    (callOpenAI cs ms now
        (fun _ => { ok := true, status := 200, statusText := ("OK"), json := { choices := [{ role := Role.assistant, content := c }], usage := u } })
        msgs model opts).1
      = Except.ok { choices := [{ role := Role.assistant, content := c }], usage := u } := by
  unfold callOpenAI
  rw [hk]
  simp [hr]

/-- C1: Partial failure isolation in collaborate — for a non-empty participant list
and positive iteration count the run never aborts: it produces exactly N*K turn
records, returns with its completion timestamp set, every record is either a success
record or an error record, and a failing turn is recorded as an error record carrying
the error message (instead of a response) while the loop continues. -/
theorem collaborate_partial_failure_isolation (os : OrchState) (runId : String)
    (agentIds : List String) (goal : String) (iterations : Nat) (now : Nat)
    (fO : OpenAIBody → HttpResp APIResponse) (fA : AnthropicBody → HttpResp AnthropicResult)
    (_hne : agentIds ≠ []) (_hpos : 0 < iterations) :
    ((collaborateAgents os runId agentIds goal iterations now fO fA).1.conversation).length
        = agentIds.length * iterations
  ∧ (collaborateAgents os runId agentIds goal iterations now fO fA).1.completed = some now
  ∧ (∀ r ∈ (collaborateAgents os runId agentIds goal iterations now fO fA).1.conversation,
        recordShape r)
  ∧ (∀ (os₀ : OrchState) (conv : List TurnRecord) (msg : String) (i : Nat)
        (aid e : String) (os₁ : OrchState),
        executeAgent os₀ now fO fA aid msg {} = (Except.error e, os₁) →
        collabTurn fO fA now agentIds.length i (os₀, conv, msg) aid
          = (os₁, conv ++ [errorRecord (i + 1) now aid e], msg)) := by
  refine ⟨?_, rfl, ?_, ?_⟩
  · unfold collaborateAgents
    rw [collabFold_len]
    simp
  · unfold collaborateAgents
    intro r hr
    exact collabFold_shape fO fA now agentIds.length agentIds iterations _ (by simp) r hr
  · intro os₀ conv msg i aid e os₁ h
    exact collabTurn_err fO fA now agentIds.length i os₀ conv msg aid e os₁ h

/-- Witness for C1: three agents with the middle one always failing, two iterations —
six records, completion set, all records well-shaped, and exactly two error records,
both carrying the configuration error message. -/
theorem collaborate_partial_failure_isolation_witness :
    ((((collaborateAgents iso3OS ("run3") [("a1"), ("a2"), ("a3")] ("G") 2 0 okFO noFA).1.conversation).length
        = ([("a1"), ("a2"), ("a3")] : List String).length * 2)
      ∧ ((collaborateAgents iso3OS ("run3") [("a1"), ("a2"), ("a3")] ("G") 2 0 okFO noFA).1.completed = some 0)
      ∧ (∀ r ∈ (collaborateAgents iso3OS ("run3") [("a1"), ("a2"), ("a3")] ("G") 2 0 okFO noFA).1.conversation,
            recordShape r)
      ∧ (∀ (os₀ : OrchState) (conv : List TurnRecord) (msg : String) (i : Nat)
            (aid e : String) (os₁ : OrchState),
            executeAgent os₀ 0 okFO noFA aid msg {} = (Except.error e, os₁) →
            collabTurn okFO noFA 0 ([("a1"), ("a2"), ("a3")] : List String).length i (os₀, conv, msg) aid
              = (os₁, conv ++ [errorRecord (i + 1) 0 aid e], msg)))
  ∧ ((iso3Run.1.conversation.filter (fun r => r.error.isSome)).length = 2
      ∧ iso3Run.1.conversation.filter (fun r => r.error.isSome)
          = [errorRecord 1 0 ("a2") ("Anthropic API key not configured"),
             errorRecord 2 0 ("a2") ("Anthropic API key not configured")]) :=
  ⟨collaborate_partial_failure_isolation iso3OS ("run3") [("a1"), ("a2"), ("a3")] ("G") 2 0 okFO noFA
      (by decide) (by decide),
   by decide⟩

/-- C2: Atomic memory update in executeAgent — on any error the registry (hence every
agent's memory, length and content) is exactly as before the call, and on success the
executed agent's stored memory is the old buffer with the user message and the
assistant reply appended together (never just one), then trimmed. -/
theorem executeAgent_memory_atomic (os : OrchState) (now : Nat)
    (fO : OpenAIBody → HttpResp APIResponse) (fA : AnthropicBody → HttpResp AnthropicResult)
    (aid msg : String) (opts : Options) :
    (∀ e, (executeAgent os now fO fA aid msg opts).1 = Except.error e →
      ((executeAgent os now fO fA aid msg opts).2).agents = os.agents)
  ∧ (∀ res a, (executeAgent os now fO fA aid msg opts).1 = Except.ok res →
      lookupAgent os.agents aid = some a →
      ∃ am : Message, am.content = res.response ∧
        lookupAgent ((executeAgent os now fO fA aid msg opts).2).agents aid
          = some { a with memory := trimMemory (a.memory ++ [{ role := Role.user, content := msg }, am]) }) := by
  constructor
  · intro e h
    exact executeAgent_err_agents os now fO fA aid msg opts e h
  · intro res a h ha
    exact executeAgent_ok_mem os now fO fA aid msg opts res a h ha

/-- Witness for C2: a failed execution (unknown agent id) leaves the registry
unchanged. -/
theorem executeAgent_memory_atomic_witness :
    ((executeAgent os0 0 okFO noFA ("zzz") ("hi") {}).2).agents = os0.agents :=
  (executeAgent_memory_atomic os0 0 okFO noFA ("zzz") ("hi") {}).1 ("Agent not found") rfl

/-- C3: Rate limiter check-and-reserve contract — the window lazily resets (count 0,
reset time now+60000) before evaluation exactly when the instant passed the reset
time; the composite check-and-reserve returns true and increments the count iff the
post-reset count is below the limit, and returns false leaving the post-reset window
unchanged otherwise (a denied check consumes no quota); it coincides with the
contract transcribed from the specification, and at both adapter call sites the
provider window evolves exactly by this composite operation. -/
theorem rate_limit_check_and_reserve (w : RateLimitWindow) (now : Nat) :
    checkAndReserve w now = specCheckAndReserve w now
  ∧ (now > w.resetTime → (checkRateLimit w now).2 = { w with requests := 0, resetTime := now + 60000 })
  ∧ (¬ now > w.resetTime → (checkRateLimit w now).2 = w)
  ∧ ((checkAndReserve w now).1 = true ↔ ((checkRateLimit w now).2).requests < ((checkRateLimit w now).2).limit)
  ∧ ((checkAndReserve w now).1 = true →
      (checkAndReserve w now).2
        = { (checkRateLimit w now).2 with requests := ((checkRateLimit w now).2).requests + 1 })
  ∧ ((checkAndReserve w now).1 = false → (checkAndReserve w now).2 = (checkRateLimit w now).2)
  ∧ (∀ (cs : ClientState) (ms : Metrics) (fO : OpenAIBody → HttpResp APIResponse)
        (msgs : List Message) (model : String) (opts : Options) (key : String),
        cs.openaiKey = some key →
        ((callOpenAI cs ms now fO msgs model opts).2.1).openaiWindow
          = (checkAndReserve cs.openaiWindow now).2)
  ∧ (∀ (cs : ClientState) (ms : Metrics) (fA : AnthropicBody → HttpResp AnthropicResult)
        (msgs : List Message) (model : String) (opts : Options) (key : String),
        cs.anthropicKey = some key →
        ((callAnthropic cs ms now fA msgs model opts).2.1).anthropicWindow
          = (checkAndReserve cs.anthropicWindow now).2) := by
  refine ⟨?_, ?_, ?_, ?_, ?_, ?_, ?_, ?_⟩
  · unfold checkAndReserve specCheckAndReserve checkRateLimit
    by_cases h : (if now > w.resetTime then { w with requests := 0, resetTime := now + 60000 } else w).requests
        < (if now > w.resetTime then { w with requests := 0, resetTime := now + 60000 } else w).limit
        <;> simp [h]
  · intro h
    unfold checkRateLimit
    simp [h]
  · intro h
    unfold checkRateLimit
    simp [h]
  · unfold checkAndReserve checkRateLimit
    by_cases h : (if now > w.resetTime then { w with requests := 0, resetTime := now + 60000 } else w).requests
        < (if now > w.resetTime then { w with requests := 0, resetTime := now + 60000 } else w).limit
        <;> simp [h]
  · intro h
    unfold checkAndReserve at *
    by_cases hc : (checkRateLimit w now).1 <;> simp [hc] at h ⊢
  · intro h
    unfold checkAndReserve at *
    by_cases hc : (checkRateLimit w now).1 <;> simp [hc] at h ⊢
  · intro cs ms fO msgs model opts key hk
    exact callOpenAI_window cs ms now fO msgs model opts key hk
  · intro cs ms fA msgs model opts key hk
    exact callAnthropic_window cs ms now fA msgs model opts key hk

/-- Witness for C3: the limit-1 scenario — a first reservation is admitted and
consumes the slot, an immediate second check is denied and changes nothing, and
after the window elapses a reservation is admitted again. -/
theorem rate_limit_check_and_reserve_witness :
    ((checkAndReserve { requests := 0, resetTime := 60000, limit := 1 } 0).2
        = { (checkRateLimit { requests := 0, resetTime := 60000, limit := 1 } 0).2 with
            requests := ((checkRateLimit { requests := 0, resetTime := 60000, limit := 1 } 0).2).requests + 1 })
  ∧ (checkAndReserve { requests := 0, resetTime := 60000, limit := 1 } 0
        = (true, { requests := 1, resetTime := 60000, limit := 1 }))
  ∧ (checkAndReserve { requests := 1, resetTime := 60000, limit := 1 } 0
        = (false, { requests := 1, resetTime := 60000, limit := 1 }))
  ∧ ((checkAndReserve { requests := 1, resetTime := 60000, limit := 1 } 70000).1 = true) :=
  ⟨(rate_limit_check_and_reserve { requests := 0, resetTime := 60000, limit := 1 } 0).2.2.2.2.1 (by decide),
   by decide, by decide, by decide⟩

/-- C4: Bounded agent memory with FIFO eviction — trimming always leaves at most 20
messages and always keeps a suffix (newest kept, oldest dropped first); a successful
execution stores exactly the trimmed appended buffer; and after 15 successful
exchanges agent `a` holds exactly the 20 most recently appended messages in order. -/
theorem memory_cap_fifo (os : OrchState) (now : Nat)
    (fO : OpenAIBody → HttpResp APIResponse) (fA : AnthropicBody → HttpResp AnthropicResult)
    (aid msg : String) (opts : Options) :
    (∀ l : List Message, (trimMemory l).length ≤ 20 ∧ trimMemory l <:+ l)
  ∧ (∀ res a, (executeAgent os now fO fA aid msg opts).1 = Except.ok res →
      lookupAgent os.agents aid = some a →
      ∃ am : Message,
        lookupAgent ((executeAgent os now fO fA aid msg opts).2).agents aid
          = some { a with memory := trimMemory (a.memory ++ [{ role := Role.user, content := msg }, am]) })
  ∧ ((lookupAgent (runExchanges 15 memOS).agents ("a")).map Agent.memory = some expected20) := by
  refine ⟨fun l => ⟨trimMemory_length_le l, trimMemory_suffix l⟩, ?_, by decide⟩
  intro res a h ha
  obtain ⟨am, _, h2⟩ := executeAgent_ok_mem os now fO fA aid msg opts res a h ha
  exact ⟨am, h2⟩

/-- Witness for C4: the first exchange against agent `a` stores the trimmed
two-message buffer. -/
theorem memory_cap_fifo_witness :
    ∃ am : Message,
      lookupAgent ((executeAgent memOS 0 okFO noFA ("a") ("m1") {}).2).agents ("a")
        = some { mAgent with memory := trimMemory (mAgent.memory ++ [{ role := Role.user, content := ("m1") }, am]) } :=
  (memory_cap_fifo memOS 0 okFO noFA ("a") ("m1") {}).2.1
    { agent := { id := ("a"), name := ("A"), role := ("Assistant"), provider := ("openai") }
      response := ("r"), usage := usage0 }
    mAgent rfl rfl

/-- C5 counterexample: with Alice succeeding and Bob always failing, the prompt Alice
receives in iteration 2 (her third memory entry) is the digest of only the first turn
record — not the digest of the two most recent turn records that the claim requires
after each turn, so a failed turn does not re-derive the prompt. -/
theorem round_robin_counterexample :
    ((lookupAgent (runErr2.2).agents ("alice")).map (fun a => a.memory[2]?)
        = some (some ({ role := Role.user
                        content := previousResponsesDigest 2 ((runErr2.1).conversation.take 1) } : Message)))
  ∧ previousResponsesDigest 2 ((runErr2.1).conversation.take 1)
      ≠ previousResponsesDigest 2 ((runErr2.1).conversation.take 2) :=
  ⟨by decide, by decide⟩

/-- C5 (amended): after each successful turn the next prompt is re-derived as the
digest of the most recent participant-count records of the extended conversation,
regardless of which iteration produced them; after a failed turn the prompt is left
unchanged; in the all-success two-agent two-iteration scenario the prompt for
iteration 2 / agent 1 is exactly the digest of both agents' iteration-1 records,
referencing both by name-tagged content. -/
theorem round_robin_transition (fO : OpenAIBody → HttpResp APIResponse)
    (fA : AnthropicBody → HttpResp AnthropicResult) (now n i : Nat) (os : OrchState)
    (conv : List TurnRecord) (msg aid : String) :
    (∀ r os₁, executeAgent os now fO fA aid msg {} = (Except.ok r, os₁) →
      collabTurn fO fA now n i (os, conv, msg) aid
        = (os₁, conv ++ [successRecord (i + 1) now r],
           previousResponsesDigest n (conv ++ [successRecord (i + 1) now r])))
  ∧ (∀ e os₁, executeAgent os now fO fA aid msg {} = (Except.error e, os₁) →
      collabTurn fO fA now n i (os, conv, msg) aid
        = (os₁, conv ++ [errorRecord (i + 1) now aid e], msg))
  ∧ ((lookupAgent (runOk2.2).agents ("alice")).map (fun a => a.memory[2]?)
        = some (some ({ role := Role.user
                        content := previousResponsesDigest 2 ((runOk2.1).conversation.take 2) } : Message)))
  ∧ (previousResponsesDigest 2 ((runOk2.1).conversation.take 2)
        = ("Previous responses:\nAlice: IA|2\n\nBob: IB|2\n\nPlease build upon these ideas and continue working toward our goal.")) := by
  refine ⟨?_, ?_, by decide, by decide⟩
  · intro r os₁ h
    exact collabTurn_ok fO fA now n i os conv msg aid r os₁ h
  · intro e os₁ h
    exact collabTurn_err fO fA now n i os conv msg aid e os₁ h

/-- Witness for C5's amended transition rule: a failing turn (unknown agent id) keeps
the prompt unchanged while recording the error. -/
theorem round_robin_transition_witness :
    collabTurn okFO noFA 0 1 0 (os0, ([] : List TurnRecord), ("start")) ("zzz")
      = (os0, [] ++ [errorRecord (0 + 1) 0 ("zzz") ("Agent not found")], ("start")) :=
  (round_robin_transition okFO noFA 0 1 0 os0 [] ("start") ("zzz")).2.1 ("Agent not found") os0 rfl

/-- C6 counterexample: a config whose provider is the unknown string bogus yields an
agent whose provider is bogus — not the default and not a supported identifier, so an
unknown provider is not replaced by the default. -/
theorem createAgent_unknown_provider_counterexample :
    ((createAgent os0 ("id1") 0 { provider := some ("bogus") }).1).provider = ("bogus")
  ∧ ("bogus" : String) ≠ ("openai")
  ∧ ("bogus" : String) ≠ ("anthropic") :=
  ⟨rfl, by decide, by decide⟩

/-- C6 (amended): only a missing or empty (falsy) provider field falls back to the
default openai; any other provider string — supported or not — is stored on the
created agent unchanged and unvalidated. -/
theorem createAgent_provider_defaulting (os : OrchState) (freshId : String) (now : Nat)
    (config : AgentConfig) :
    ((config.provider = none ∨ config.provider = some ("")) →
      ((createAgent os freshId now config).1).provider = ("openai"))
  ∧ (∀ p : String, config.provider = some p → p ≠ ("") →
      ((createAgent os freshId now config).1).provider = p) := by
  constructor
  · rintro (h | h) <;> simp [createAgent, jsOr, h]
  · intro p h hne
    simp [createAgent, jsOr, h, hne]

/-- Witness for C6's amended defaulting: a config without a provider field yields the
default provider. -/
theorem createAgent_provider_defaulting_witness :
    ((createAgent os0 ("id2") 0 ({} : AgentConfig)).1).provider = ("openai") :=
  (createAgent_provider_defaulting os0 ("id2") 0 {}).1 (Or.inl rfl)

/-- C7 counterexample: with the OpenAI credential configured and quota available, a
call whose transport response is a 500 failure still increments the OpenAI request
counter from 0 to 1 — the counter does not reflect only completed successful calls. -/
theorem request_counter_counterexample :
    ((callOpenAI (os0.client) metrics0 0 failFO [] ("gpt-4") {}).1
        = Except.error ("OpenAI API error: 500 Internal Server Error"))
  ∧ metrics0.openaiRequests = 0
  ∧ ((callOpenAI (os0.client) metrics0 0 failFO [] ("gpt-4") {}).2.2).openaiRequests = 1 :=
  ⟨rfl, rfl, rfl⟩

/-- C7 (amended): the provider-specific request counter counts admitted call
attempts — it is incremented exactly once whenever the credential and rate-limit
gates both pass, regardless of the transport outcome, and is unchanged whenever
either gate fails. -/
theorem request_counter_semantics (cs : ClientState) (ms : Metrics) (now : Nat)
    (fO : OpenAIBody → HttpResp APIResponse) (fA : AnthropicBody → HttpResp AnthropicResult)
    (msgs : List Message) (model : String) (opts : Options) :
    (∀ key, cs.openaiKey = some key → (checkRateLimit cs.openaiWindow now).1 = true →
      ((callOpenAI cs ms now fO msgs model opts).2.2).openaiRequests = ms.openaiRequests + 1)
  ∧ (cs.openaiKey = none → (callOpenAI cs ms now fO msgs model opts).2.2 = ms)
  ∧ (∀ key, cs.openaiKey = some key → (checkRateLimit cs.openaiWindow now).1 = false →
      (callOpenAI cs ms now fO msgs model opts).2.2 = ms)
  ∧ (∀ key, cs.anthropicKey = some key → (checkRateLimit cs.anthropicWindow now).1 = true →
      ((callAnthropic cs ms now fA msgs model opts).2.2).anthropicRequests = ms.anthropicRequests + 1)
  ∧ (cs.anthropicKey = none → (callAnthropic cs ms now fA msgs model opts).2.2 = ms)
  ∧ (∀ key, cs.anthropicKey = some key → (checkRateLimit cs.anthropicWindow now).1 = false →
      (callAnthropic cs ms now fA msgs model opts).2.2 = ms) := by
  refine ⟨?_, ?_, ?_, ?_, ?_, ?_⟩
  · intro key hk hr
    exact callOpenAI_counter_admitted cs ms now fO msgs model opts key hk hr
  · intro h
    unfold callOpenAI
    rw [h]
  · intro key hk hr
    exact callOpenAI_counter_denied cs ms now fO msgs model opts key hk hr
  · intro key hk hr
    exact callAnthropic_counter_admitted cs ms now fA msgs model opts key hk hr
  · intro h
    unfold callAnthropic
    rw [h]
  · intro key hk hr
    exact callAnthropic_counter_denied cs ms now fA msgs model opts key hk hr

/-- Witness for C7's amended counter semantics at a concrete failing call. -/
theorem request_counter_semantics_witness :
    ((callOpenAI (os0.client) metrics0 0 failFO [] ("gpt-4") {}).2.2).openaiRequests
      = metrics0.openaiRequests + 1 :=
  (request_counter_semantics (os0.client) metrics0 0 failFO noFA [] ("gpt-4") {}).1 ("k1") rfl rfl

/-- C8: ProviderB normalization — the Anthropic-shaped request hoists exactly the
system-role messages, newline-joined, into the single top-level system field, sends
the remaining messages as a subsequence in their original relative order, and a
canned single-block reply is normalized to the very value the OpenAI adapter returns
for the equivalent canned response, so downstream code is provider-agnostic. -/
theorem providerB_normalization (msgs : List Message) (model : String) (opts : Options)
    (cs : ClientState) (ms : Metrics) (now : Nat) (c : String) (u : Usage) :
    ((anthropicBody msgs model opts).system
      = String.intercalate ("\n") ((msgs.filter (fun m => m.role == Role.system)).map (fun m => m.content)))
  ∧ ((anthropicBody msgs model opts).messages = msgs.filter (fun m => m.role != Role.system))
  ∧ List.Sublist (anthropicBody msgs model opts).messages msgs
  ∧ (∀ key, cs.anthropicKey = some key → (checkRateLimit cs.anthropicWindow now).1 = true →
      (callAnthropic cs ms now
          (fun _ => { ok := true, status := 200, statusText := ("OK"), json := { content := [c], usage := u } })
          msgs model opts).1
        = Except.ok { choices := [{ role := Role.assistant, content := c }], usage := u })
  ∧ (∀ key, cs.openaiKey = some key → (checkRateLimit cs.openaiWindow now).1 = true →
      (callOpenAI cs ms now
          (fun _ => { ok := true, status := 200, statusText := ("OK"), json := { choices := [{ role := Role.assistant, content := c }], usage := u } })
          msgs model opts).1
        = Except.ok { choices := [{ role := Role.assistant, content := c }], usage := u }) := by
  refine ⟨rfl, rfl, ?_, ?_, ?_⟩
  · exact List.filter_sublist msgs
  · intro key hk hr
    exact callAnthropic_canned cs ms now msgs model opts c u key hk hr
  · intro key hk hr
    exact callOpenAI_canned cs ms now msgs model opts c u key hk hr

/-- Witness for C8 on the specification's example list (one system message, then
user and assistant) with both providers configured: the two adapters produce the
identical normalized reply, the system message is hoisted, and the remaining
messages keep their order. -/
theorem providerB_normalization_witness :
    ((callAnthropic bothClient metrics0 0
          (fun _ => { ok := true, status := 200, statusText := ("OK"), json := { content := [("C")], usage := usage0 } })
          exMsgs ("claude-3-5-sonnet-20241022") {}).1
        = Except.ok { choices := [{ role := Role.assistant, content := ("C") }], usage := usage0 })
  ∧ ((callOpenAI bothClient metrics0 0
          (fun _ => { ok := true, status := 200, statusText := ("OK"), json := { choices := [{ role := Role.assistant, content := ("C") }], usage := usage0 } })
          exMsgs ("gpt-4") {}).1
        = Except.ok { choices := [{ role := Role.assistant, content := ("C") }], usage := usage0 })
  ∧ ((anthropicBody exMsgs ("claude-3-5-sonnet-20241022") {}).system = ("s1"))
  ∧ ((anthropicBody exMsgs ("claude-3-5-sonnet-20241022") {}).messages
      = [{ role := Role.user, content := ("u1") }, { role := Role.assistant, content := ("a1") }]) :=
  ⟨(providerB_normalization exMsgs ("claude-3-5-sonnet-20241022") {} bothClient metrics0 0 ("C") usage0).2.2.2.1
      ("k2") rfl rfl,
   (providerB_normalization exMsgs ("gpt-4") {} bothClient metrics0 0 ("C") usage0).2.2.2.2
      ("k1") rfl rfl,
   by decide, by decide⟩

/-- C9: A missing credential short-circuits before the rate limiter: the adapter
fails with the configuration error while the entire client state and metrics —
including the rate-limit window (not even lazily reset) and the request counter —
are returned unchanged. -/
theorem missing_credential_short_circuit (cs : ClientState) (ms : Metrics) (now : Nat)
    (fO : OpenAIBody → HttpResp APIResponse) (fA : AnthropicBody → HttpResp AnthropicResult)
    (msgs : List Message) (model : String) (opts : Options) :
    (cs.openaiKey = none →
      callOpenAI cs ms now fO msgs model opts
        = (Except.error ("OpenAI API key not configured"), cs, ms))
  ∧ (cs.anthropicKey = none →
      callAnthropic cs ms now fA msgs model opts
        = (Except.error ("Anthropic API key not configured"), cs, ms)) := by
  constructor
  · intro h
    unfold callOpenAI
    rw [h]
  · intro h
    unfold callAnthropic
    rw [h]

/-- Witness for C9 at a concrete state with the Anthropic credential missing. -/
theorem missing_credential_short_circuit_witness :
    callAnthropic (os0.client) metrics0 0 noFA [] ("claude-3-5-sonnet-20241022") {}
      = (Except.error ("Anthropic API key not configured"), os0.client, metrics0) :=
  (missing_credential_short_circuit (os0.client) metrics0 0 okFO noFA []
      ("claude-3-5-sonnet-20241022") {}).2 rfl

/-- C10: collaborate with an empty participant list does not error — for every goal
and every iteration count the run returns with zero turn records, its completion
timestamp set, and the orchestrator state unchanged. -/
theorem collaborate_empty_participants (os : OrchState) (runId goal : String)
    (iterations now : Nat)
    (fO : OpenAIBody → HttpResp APIResponse) (fA : AnthropicBody → HttpResp AnthropicResult) :
    (collaborateAgents os runId [] goal iterations now fO fA).1.conversation = []
  ∧ (collaborateAgents os runId [] goal iterations now fO fA).1.completed = some now
  ∧ (collaborateAgents os runId [] goal iterations now fO fA).2 = os := by
  have hfold : (List.range iterations).foldl
      (fun a i => ([] : List String).foldl (collabTurn fO fA now (([] : List String).length) i) a)
      (os, ([] : List TurnRecord), initialMessage goal)
        = (os, ([] : List TurnRecord), initialMessage goal) := by
    simp only [List.foldl_nil]
    exact foldl_skip _ _
  unfold collaborateAgents
  dsimp only
  rw [hfold]
  exact ⟨rfl, rfl, rfl⟩

end DualAI
